import Mathlib

/-!
Shallow embedding of `src/supabase-bridge.js`: a browser-side bridge
wrapping a Supabase client, mirroring query results into a localStorage
cache and gating admin pages.

JSON/JS scalar values are modelled by `JVal` (numbers restricted to
integers: the bridge only ever coerces and defaults numeric fields, no
arithmetic is performed on them).  The remote backend is modelled by
passing each remote call's outcome as an explicit argument; browser
state (localStorage cells, dispatched events, `location.href`) is an
explicit state record threaded through each operation.
-/

/-- A JavaScript/JSON scalar value as the bridge manipulates it. -/
inductive JVal where
  | null
  | undef
  | bool (b : Bool)
  | num (n : Int)
  | str (s : String)
deriving DecidableEq, Repr, Inhabited

/-- JS whitespace stripped by `Number(string)`. -/
def jsWSpace (c : Char) : Bool :=
  c = ' ' || c = '\t' || c = '\n' || c = '\r'

def digitVal (c : Char) : Option Nat :=
  if c.isDigit then some (c.toNat - '0'.toNat) else none

def natOfDigits (cs : List Char) : Option Nat :=
  if cs.isEmpty then none
  else cs.foldl (fun acc c =>
    match acc, digitVal c with
    | some n, some d => some (n * 10 + d)
    | _, _ => none) (some 0)

def intOfChars : List Char → Option Int
  | '-' :: cs => (natOfDigits cs).map (fun n => -(n : Int))
  | '+' :: cs => (natOfDigits cs).map (fun n => (n : Int))
  | cs => (natOfDigits cs).map (fun n => (n : Int))

/-- `Number(s)` for a string, restricted to integer numerics:
after stripping surrounding whitespace, an empty string coerces to 0
and an optionally signed digit string to its integer value; anything
else is NaN (`none`).  Fractional, exponent and radix-prefixed forms
are outside the model, which only ever compares, defaults and stores
these numbers. -/
def strToNumber (s : String) : Option Int :=
  let cs := ((s.data.dropWhile jsWSpace).reverse.dropWhile jsWSpace).reverse
  if cs.isEmpty then some 0 else intOfChars cs

/-- JS `Number(v)`; `none` models NaN. -/
def jsToNumber : JVal → Option Int
  | .null => some 0
  | .undef => none
  | .bool b => some (if b then 1 else 0)
  | .num n => some n
  | .str s => strToNumber s

/-- JS truthiness (`!!v`). -/
def jsToBool : JVal → Bool
  | .null => false
  | .undef => false
  | .bool b => b
  | .num n => n != 0
  | .str s => s != ""

/-- JS `Number(v) || d` (the `||` falls through on 0 and NaN). -/
def numOr (v : JVal) (d : Int) : Int :=
  match jsToNumber v with
  | none => d
  | some n => if n = 0 then d else n

/-- JS `a || b`. -/
def jsOr (a b : JVal) : JVal :=
  if jsToBool a then a else b

/-- JS `a ?? b` (nullish coalescing: falls through only on null/undefined). -/
def nullish (a b : JVal) : JVal :=
  match a with
  | .null => b
  | .undef => b
  | _ => a

/-- JS `String(v)`. -/
def jsToString : JVal → String
  | .null => "null"
  | .undef => "undefined"
  | .bool b => if b then "true" else "false"
  | .num n => toString n
  | .str s => s

/-- Default applied by JS destructuring (`{x = d}`): triggers only on
undefined. -/
def dflt (v d : JVal) : JVal :=
  if v = .undef then d else v

/-! ## The localStorage helper `LS` (lines 14-17)

A storage cell holds either a string that fails `JSON.parse`
(`Stored.corrupt`) or one that parses to a value (`Stored.val v`).
An absent key makes `localStorage.getItem` return null, and
`JSON.parse(null)` parses the string "null" to the value null
(no throw). -/

inductive Stored where
  | corrupt
  | val (v : JVal)
deriving DecidableEq, Repr

def Store : Type := String → Option Stored

/-- The try-block of `LS.get`: `JSON.parse(localStorage.getItem(k))`,
`.error` marking a thrown parse failure. -/
def parseCell : Option Stored → Except Unit JVal
  | none => .ok .null
  | some .corrupt => .error ()
  | some (.val v) => .ok v

namespace LS

/-- `LS.get(k, def)` (line 15): parse the cell inside try/catch; the
catch returns `def`, and a successful parse is `?? def`-coalesced. -/
def get (st : Store) (k : String) (d : JVal) : JVal :=
  match parseCell (st k) with
  | .error _ => d
  | .ok v => nullish v d

/-- `LS.set(k, v)` (line 16): `JSON.stringify` then `setItem` inside
try/catch.  `writeOk = false` models a thrown storage failure (e.g.
quota exceeded), swallowed by the empty catch, leaving the store
unchanged.  `JSON.stringify(undefined)` is undefined, which `setItem`
coerces to the unparsable string "undefined". -/
def set (st : Store) (k : String) (v : JVal) (writeOk : Bool) : Store :=
  if writeOk then
    fun k2 => if k2 = k then some (if v = .undef then .corrupt else .val v) else st k2
  else st

end LS

/-- The store before any `set`. -/
def emptyStore : Store := fun _ => none

/-! ## Typed cache cells and browser state

The operations read and write three localStorage keys holding JSON
lists.  A typed cell mirrors the `LS.get`/`LS.set` semantics: an
absent or unparsable cell, or one holding JSON null, makes
`LS.get(k, [])` fall back to the default. -/

inductive Cell (A : Type) where
  | absent
  | corrupt
  | nullStored
  | val (a : A)
deriving DecidableEq, Repr

/-- `LS.get(key, d)` on a typed cell. -/
def cellGet {A : Type} (c : Cell A) (d : A) : A :=
  match c with
  | .absent => d
  | .corrupt => d
  | .nullStored => d
  | .val a => a

/-- Server row of `menu_items` as returned by the select on line 36:
every column is an arbitrary JSON scalar. -/
structure MenuRow where
  id : JVal
  name : JVal
  desc : JVal
  price : JVal
  img : JVal
  cat_id : JVal
  available : JVal
  fresh : JVal
  rating_avg : JVal
  rating_count : JVal
  created_at : JVal
deriving DecidableEq, Repr

/-- Normalized catalog item (the adapted shape of lines 41-53). -/
structure MenuItem where
  id : JVal
  name : JVal
  desc : JVal
  price : Int
  img : JVal
  cat_id : JVal
  available : Bool
  fresh : Bool
  rating_avg : Int
  rating_count : Int
  created_at : JVal
deriving DecidableEq, Repr

/-- Cache-side reservation entry (the shape written to the
`reservations` key). -/
structure Res where
  id : JVal
  name : JVal
  phone : JVal
  date : JVal
  people : JVal
  status : JVal
  notes : JVal
  table : JVal
  duration : JVal
  updatedAt : JVal
deriving DecidableEq, Repr, Inhabited

/-- Browser-side state threaded through each operation: the three
cache cells, the number of `sb:admin-synced` events dispatched on the
document, and the value last assigned to `location.href`. -/
structure St where
  cats : Cell (List JVal)
  menu : Cell (List MenuItem)
  resv : Cell (List Res)
  events : Nat
  redirect : Option String
deriving Repr

/-! ## `syncPublicCatalogToLocal` (lines 28-58) -/

/-- The per-item adapter of lines 41-53.  `it.desc ?? it["desc"] ?? ''`
reads the same property twice, so it is a double nullish coalesce on
one field. -/
def adaptMenuRow (it : MenuRow) : MenuItem :=
  { id := it.id
    name := it.name
    desc := nullish (nullish it.desc it.desc) (.str "")
    price := numOr it.price 0
    img := jsOr it.img (.str "")
    cat_id := jsOr it.cat_id .null
    available := jsToBool it.available
    fresh := jsToBool it.fresh
    rating_avg := numOr it.rating_avg 0
    rating_count := numOr it.rating_count 0
    created_at := it.created_at }

/-- `syncPublicCatalogToLocal()`.  Arguments model the environment:
`sb` is whether `window.supabase` is configured; `catsRes` the
categories query outcome (error, or `data` possibly null); `menuDb`
the rows of the `menu_items` table visible to the query (`none`
models a null `data`), to which the server applies the
`.eq('available', true)` filter; `itemsErr` a server error on the
items query.  Returns the thrown error or the function's return value
(`none` = undefined), paired with the final browser state. -/
def syncPublicCatalogToLocal (sb : Bool)
    (catsRes : Except JVal (Option (List JVal)))
    (menuDb : Option (List MenuRow)) (itemsErr : Option JVal)
    (st : St) : Except JVal (Option (List JVal × List MenuItem)) × St :=
  if !sb then (.ok none, st)
  else
    match catsRes with
    | .error e => (.error e, st)
    | .ok catsData =>
      match itemsErr with
      | some e => (.error e, st)
      | none =>
        let rows := (menuDb.getD []).filter (fun r => r.available = .bool true)
        let adapted := rows.map adaptMenuRow
        let cats := catsData.getD []
        (.ok (some (cats, adapted)),
         { st with cats := .val cats, menu := .val adapted })

/-! ## Auth / admin guards (lines 63-95) -/

/-- Environment of one `requireAdminOrRedirect` call: whether the
client is configured, the value of `session?.user?.id` (undefined
when no session), the `{data, error}` pair of the `is_admin` RPC plus
whether the awaited call itself throws, and likewise for the
reservations probe. -/
structure AuthEnv where
  sb : Bool
  sessionUid : JVal
  rpcData : JVal
  rpcErr : JVal
  rpcThrows : Bool
  probeErr : JVal
  probeThrows : Bool
deriving DecidableEq, Repr

/-- `isCurrentUserAdminRPC` (lines 63-70): false on a thrown call or
truthy `error`, else `!!data`. -/
def isCurrentUserAdminRPC (env : AuthEnv) : Bool :=
  if env.rpcThrows then false
  else if jsToBool env.rpcErr then false
  else jsToBool env.rpcData

/-- `probeAdminBySelect` (lines 72-78): false on a thrown call, else
`!r.error`. -/
def probeAdminBySelect (env : AuthEnv) : Bool :=
  if env.probeThrows then false
  else !jsToBool env.probeErr

/-- `requireAdminOrRedirect(loginUrl)` (lines 84-95).  Returns the
function's return value (`none` would be undefined; the code always
returns a boolean) paired with the final state; a redirect is
recorded in `St.redirect`. -/
def requireAdminOrRedirect (env : AuthEnv) (loginUrl : String)
    (st : St) : Option Bool × St :=
  if !env.sb then (some false, st)
  else if !jsToBool env.sessionUid then
    (some false, { st with redirect := some loginUrl })
  else if !(isCurrentUserAdminRPC env || probeAdminBySelect env) then
    (some false, { st with redirect := some loginUrl })
  else (some true, st)

/-! ## `syncAdminDataToLocal` (lines 101-129) -/

/-- Server row of `reservations` as returned by the select on
line 107. -/
structure ResRow where
  id : JVal
  name : JVal
  phone : JVal
  date : JVal
  people : JVal
  status : JVal
  notes : JVal
  table_no : JVal
  duration_minutes : JVal
deriving DecidableEq, Repr

/-- The per-row adapter of lines 111-122, with `now` the ISO string of
the sync time. -/
def adaptResRow (now : String) (r : ResRow) : Res :=
  { id := r.id
    name := r.name
    phone := jsOr r.phone (.str "")
    date := r.date
    people := .num (numOr r.people 1)
    status := jsOr r.status (.str "new")
    notes := jsOr r.notes (.str "")
    table := jsOr r.table_no (.str "")
    duration := .num (numOr r.duration_minutes 90)
    updatedAt := .str now }

/-- `syncAdminDataToLocal()`.  `rsRes` models the reservations query
outcome; `now` the current time. -/
def syncAdminDataToLocal (sb : Bool)
    (rsRes : Except JVal (Option (List ResRow))) (now : String)
    (st : St) : Except JVal (Option (List Res)) × St :=
  if !sb then (.ok none, st)
  else
    match rsRes with
    | .error e => (.error e, st)
    | .ok rsData =>
      let reservations := (rsData.getD []).map (adaptResRow now)
      (.ok (some reservations),
       { st with resv := .val reservations, events := st.events + 1 })

/-! ## Reservation CRUD (lines 139-215) -/

/-- Destructured payload of `createReservationSB` (line 139).  An
absent property is `JVal.undef`; the JS destructuring defaults
(`kind='table'`, `table=''`, `notes=''`, `duration_minutes=90`)
trigger exactly on undefined and are applied inside the operation. -/
structure CreatePayload where
  name : JVal
  phone : JVal
  iso : JVal
  people : JVal
  kind : JVal := .undef
  table : JVal := .undef
  notes : JVal := .undef
  duration_minutes : JVal := .undef
deriving DecidableEq, Repr

/-- The optimistic cache entry of lines 151-157, built from the
destructured payload (so the destructuring defaults are applied
first). -/
def optimisticEntry (p : CreatePayload) (nowMs : Int) (now : String) : Res :=
  { id := .str ("tmp_" ++ toString nowMs)
    name := p.name
    phone := p.phone
    date := p.iso
    people := p.people
    status := .str "new"
    notes := jsOr (dflt p.notes (.str "")) (.str "")
    table := jsOr (dflt p.table (.str "")) (.str "")
    duration := .num (numOr (dflt p.duration_minutes (.num 90)) 90)
    updatedAt := .str now }

/-- `createReservationSB(payload)` (lines 139-162).  `insErr` models a
server error on the insert; `nowMs` is `Date.now()` and `now` the ISO
time of the optimistic entry. -/
def createReservationSB (sb : Bool) (insErr : Option JVal)
    (p : CreatePayload) (nowMs : Int) (now : String)
    (st : St) : Except JVal (Option Bool) × St :=
  if !sb then (.ok none, st)
  else
    match insErr with
    | some e => (.error e, st)
    | none =>
      let list := cellGet st.resv []
      let next := optimisticEntry p nowMs now :: list
      (.ok (some true),
       { st with resv := .val next, events := st.events + 1 })

/-- Partial field set of `updateReservationSB` (line 168): `some v`
models a property present in `fields` (`'x' in f`), `none` an absent
one. -/
structure UpdFields where
  name : Option JVal := none
  phone : Option JVal := none
  date : Option JVal := none
  people : Option JVal := none
  status : Option JVal := none
  notes : Option JVal := none
  table_no : Option JVal := none
  duration_minutes : Option JVal := none
deriving DecidableEq, Repr

/-- The cache patch of lines 184-194: `{...list[i], ...patch,
updatedAt: nowISO()}` with `table_no` mapped to `table` and
`duration_minutes` to `duration`; values are copied unconverted. -/
def applyPatch (f : UpdFields) (now : String) (r : Res) : Res :=
  { id := r.id
    name := f.name.getD r.name
    phone := f.phone.getD r.phone
    date := f.date.getD r.date
    people := f.people.getD r.people
    status := f.status.getD r.status
    notes := f.notes.getD r.notes
    table := f.table_no.getD r.table
    duration := f.duration_minutes.getD r.duration
    updatedAt := .str now }

/-- `updateReservationSB(id, fields)` (lines 168-199).  `upRes` models
the update-select-single outcome (the canonical row, or an error also
covering "no row matched").  The cache entry is patched only when an
entry with string-equal id is found; the canonical row is returned
either way. -/
def updateReservationSB (sb : Bool) (id : JVal) (f : UpdFields)
    (upRes : Except JVal ResRow) (now : String)
    (st : St) : Except JVal (Option ResRow) × St :=
  if !sb then (.ok none, st)
  else
    match upRes with
    | .error e => (.error e, st)
    | .ok row =>
      let list := cellGet st.resv []
      match list.findIdx? (fun r => jsToString r.id = jsToString id) with
      | none => (.ok (some row), st)
      | some i =>
        let next := list.set i (applyPatch f now (list.getD i default))
        (.ok (some row),
         { st with resv := .val next, events := st.events + 1 })

/-- `deleteReservationSB(id)` (lines 204-215).  `delErr` models a
server error on the delete. -/
def deleteReservationSB (sb : Bool) (id : JVal) (delErr : Option JVal)
    (st : St) : Except JVal (Option Bool) × St :=
  if !sb then (.ok none, st)
  else
    match delErr with
    | some e => (.error e, st)
    | none =>
      let list := cellGet st.resv []
      let next := list.filter (fun r => jsToString r.id ≠ jsToString id)
      (.ok (some true),
       { st with resv := .val next, events := st.events + 1 })

/-! ## Theorems -/

/-- A concrete browser state used by closed instances. -/
def st0 : St :=
  { cats := .absent, menu := .absent, resv := .absent
    events := 0, redirect := none }

/-- C8: for every key and default, `LS.get` returns the supplied
default when the stored value is absent or fails to parse as JSON,
including on the pristine store (never-performed set) and after a
failed `LS.set`; and `LS.set` swallows a storage failure silently,
leaving the store unchanged.  Both functions are total: the only
throwing steps (`JSON.parse`, `setItem`) sit inside the try-blocks
made explicit in their definitions, so neither ever throws. -/
theorem LS_get_defaults_and_set_swallows (st : Store) (k : String) (d v : JVal) :
    LS.get emptyStore k d = d
    ∧ LS.get (fun x => if x = k then some Stored.corrupt else st x) k d = d
    ∧ LS.set st k v false = st
    ∧ LS.get (LS.set emptyStore k v false) k d = d := by
  refine ⟨rfl, ?_, rfl, rfl⟩
  simp [LS.get, parseCell]

/-- C10: a stored JSON `null` makes `LS.get` return the supplied
default (the `??` fallback), whereas stored `false`, `0` and `""` are
returned as-is: the fallback triggers only on null/undefined, not on
every falsy value. -/
theorem LS_get_null_falls_back_falsy_kept (st : Store) (k : String) (d : JVal) :
    LS.get (LS.set st k .null true) k d = d
    ∧ LS.get (LS.set st k (.bool false) true) k d = .bool false
    ∧ LS.get (LS.set st k (.num 0) true) k d = .num 0
    ∧ LS.get (LS.set st k (.str "") true) k d = .str "" := by
  refine ⟨?_, ?_, ?_, ?_⟩ <;> simp [LS.get, LS.set, parseCell, nullish]

/-- C2 counterexample: with no backend client configured,
`requireAdminOrRedirect` does not return undefined: line 86 is
`if (!sb) return false;`, so the call returns the boolean false
(while the other five operations do return undefined). -/
theorem requireAdmin_no_client_returns_false :
    (requireAdminOrRedirect
        { sb := false, sessionUid := .undef, rpcData := .undef
          rpcErr := .undef, rpcThrows := false
          probeErr := .undef, probeThrows := false }
        "login.html" st0).1 = some false
    ∧ (some false : Option Bool) ≠ (none : Option Bool) := by
  exact ⟨rfl, by decide⟩

/-- C2 amended: with no backend client configured, every one of the
six exposed operations performs no remote or cache action and leaves
the browser state untouched; the five sync/CRUD operations return
undefined, while `requireAdminOrRedirect` returns false. -/
theorem no_client_degrades_to_inert (st : St)
    (catsRes : Except JVal (Option (List JVal)))
    (menuDb : Option (List MenuRow)) (itemsErr : Option JVal)
    (rsRes : Except JVal (Option (List ResRow))) (now : String)
    (p : CreatePayload) (nowMs : Int) (id : JVal) (f : UpdFields)
    (upRes : Except JVal ResRow) (insErr delErr : Option JVal)
    (uid rd re pe : JVal) (rt pt : Bool) (url : String) :
    syncPublicCatalogToLocal false catsRes menuDb itemsErr st = (.ok none, st)
    ∧ requireAdminOrRedirect ⟨false, uid, rd, re, rt, pe, pt⟩ url st = (some false, st)
    ∧ syncAdminDataToLocal false rsRes now st = (.ok none, st)
    ∧ createReservationSB false insErr p nowMs now st = (.ok none, st)
    ∧ updateReservationSB false id f upRes now st = (.ok none, st)
    ∧ deleteReservationSB false id delErr st = (.ok none, st) :=
  ⟨rfl, rfl, rfl, rfl, rfl, rfl⟩

/-- C1: with a configured backend client, `requireAdminOrRedirect`
(i) redirects to `loginUrl` and returns false when no authenticated
session exists (falsy `session?.user?.id`); (ii) returns true without
redirecting when the RPC admin check affirms admin; (iii) returns
true when the RPC check fails (throw, truthy error, or falsy data)
but the fallback probe (restricted read of reservations) succeeds;
(iv) redirects and returns false when both checks fail. -/
theorem requireAdmin_cases (uid rd re pe : JVal) (rt pt : Bool)
    (url : String) (st : St) :
    (jsToBool uid = false →
      requireAdminOrRedirect ⟨true, uid, rd, re, rt, pe, pt⟩ url st =
        (some false, { st with redirect := some url }))
    ∧ (jsToBool uid = true →
       isCurrentUserAdminRPC ⟨true, uid, rd, re, rt, pe, pt⟩ = true →
      requireAdminOrRedirect ⟨true, uid, rd, re, rt, pe, pt⟩ url st =
        (some true, st))
    ∧ (jsToBool uid = true →
       isCurrentUserAdminRPC ⟨true, uid, rd, re, rt, pe, pt⟩ = false →
       probeAdminBySelect ⟨true, uid, rd, re, rt, pe, pt⟩ = true →
      requireAdminOrRedirect ⟨true, uid, rd, re, rt, pe, pt⟩ url st =
        (some true, st))
    ∧ (jsToBool uid = true →
       isCurrentUserAdminRPC ⟨true, uid, rd, re, rt, pe, pt⟩ = false →
       probeAdminBySelect ⟨true, uid, rd, re, rt, pe, pt⟩ = false →
      requireAdminOrRedirect ⟨true, uid, rd, re, rt, pe, pt⟩ url st =
        (some false, { st with redirect := some url })) := by
  refine ⟨fun h1 => ?_, fun h1 h2 => ?_, fun h1 h2 h3 => ?_, fun h1 h2 h3 => ?_⟩
  · simp [requireAdminOrRedirect, h1]
  · simp [requireAdminOrRedirect, h1, h2]
  · simp [requireAdminOrRedirect, h1, h2, h3]
  · simp [requireAdminOrRedirect, h1, h2, h3]

/-- C1 witness: a concrete run in which the session exists, the RPC
check throws, and the probe succeeds; the guard returns true without
redirecting. -/
theorem requireAdmin_cases_witness :
    requireAdminOrRedirect ⟨true, .str "u1", .undef, .undef, true, .null, false⟩
        "login.html" st0 = (some true, st0) :=
  (requireAdmin_cases (.str "u1") .undef .undef .null true false
      "login.html" st0).2.2.1 (by decide) (by decide) (by decide)

/-- C3: a successful `syncPublicCatalogToLocal` returns (and caches
under `menuItemsVisible`) exactly the adaptation of the rows the
server serves under the `available = true` filter; every returned
item comes from a row with `available = true` and carries the coerced
fields (`Number(x)||0` for price and ratings, `!!` for the booleans,
empty-string defaults for desc and img); and the numeric coercion
sends non-numeric and missing values to 0. -/
theorem syncPublicCatalog_normalizes (cd : Option (List JVal))
    (db : Option (List MenuRow)) (st : St) :
    (syncPublicCatalogToLocal true (.ok cd) db none st).1 =
      .ok (some (cd.getD [],
        ((db.getD []).filter (fun r => r.available = .bool true)).map adaptMenuRow))
    ∧ (syncPublicCatalogToLocal true (.ok cd) db none st).2.menu =
      .val (((db.getD []).filter (fun r => r.available = .bool true)).map adaptMenuRow)
    ∧ (∀ it ∈ ((db.getD []).filter (fun r => r.available = .bool true)).map adaptMenuRow,
        ∃ r, r ∈ db.getD [] ∧ r.available = .bool true ∧ it = adaptMenuRow r
          ∧ it.price = numOr r.price 0
          ∧ it.rating_avg = numOr r.rating_avg 0
          ∧ it.rating_count = numOr r.rating_count 0
          ∧ it.available = jsToBool r.available
          ∧ it.fresh = jsToBool r.fresh
          ∧ it.desc = nullish (nullish r.desc r.desc) (.str "")
          ∧ it.img = jsOr r.img (.str ""))
    ∧ (∀ v : JVal, jsToNumber v = none → numOr v 0 = 0)
    ∧ numOr .undef 0 = 0
    ∧ nullish (nullish .undef .undef) (.str "") = .str ""
    ∧ jsOr .undef (.str "") = .str "" := by
  refine ⟨rfl, rfl, ?_, ?_, rfl, rfl, rfl⟩
  · intro it hit
    rcases List.mem_map.mp hit with ⟨r, hr, rfl⟩
    rcases List.mem_filter.mp hr with ⟨hmem, hav⟩
    exact ⟨r, hmem, by simpa using hav, rfl, rfl, rfl, rfl, rfl, rfl, rfl, rfl⟩
  · intro v hv
    simp [numOr, hv]

/-- A concrete available menu row with non-numeric price and missing
rating fields. -/
def mrow1 : MenuRow :=
  { id := .num 1, name := .str "Pizza", desc := .null, price := .str "abc"
    img := .undef, cat_id := .null, available := .bool true
    fresh := .num 0, rating_avg := .undef, rating_count := .null
    created_at := .str "2024-01-01" }

/-- A concrete unavailable menu row. -/
def mrow2 : MenuRow :=
  { id := .num 2, name := .str "Cake", desc := .str "sweet", price := .num 5
    img := .str "c.png", cat_id := .num 7, available := .bool false
    fresh := .bool true, rating_avg := .num 4, rating_count := .num 10
    created_at := .str "2024-01-02" }

/-- C3 witness: on a two-row table with one available row, the cache
receives exactly the adapted available row. -/
theorem syncPublicCatalog_normalizes_witness :
    (syncPublicCatalogToLocal true (.ok (some [])) (some [mrow1, mrow2]) none st0).2.menu =
      .val [adaptMenuRow mrow1]
    ∧ (adaptMenuRow mrow1).price = 0 ∧ (adaptMenuRow mrow1).desc = .str ""
    ∧ (adaptMenuRow mrow1).img = .str "" ∧ (adaptMenuRow mrow1).fresh = false := by
  have h := syncPublicCatalog_normalizes (some []) (some [mrow1, mrow2]) st0
  exact ⟨h.2.1, by decide, by decide, by decide, by decide⟩

/-- C7: a successful `syncAdminDataToLocal` writes to the cache (and
returns) exactly the server rows with column names mapped to cache
field names (`table_no` to `table`, `duration_minutes` to
`duration`), `people` number-coerced defaulting to 1, `status`
defaulting to "new", `duration` number-coerced defaulting to 90,
`phone`/`notes`/`table` defaulting to the empty string, each stamped
with the sync time in `updatedAt`; and it emits the re-render
event. -/
theorem syncAdminData_maps_and_stamps (rows : List ResRow) (now : String) (st : St) :
    syncAdminDataToLocal true (.ok (some rows)) now st =
      (.ok (some (rows.map (adaptResRow now))),
       { st with resv := .val (rows.map (adaptResRow now))
                 events := st.events + 1 })
    ∧ (∀ r : ResRow,
        (adaptResRow now r).people = .num (numOr r.people 1)
        ∧ (adaptResRow now r).status = jsOr r.status (.str "new")
        ∧ (adaptResRow now r).duration = .num (numOr r.duration_minutes 90)
        ∧ (adaptResRow now r).phone = jsOr r.phone (.str "")
        ∧ (adaptResRow now r).notes = jsOr r.notes (.str "")
        ∧ (adaptResRow now r).table = jsOr r.table_no (.str "")
        ∧ (adaptResRow now r).id = r.id
        ∧ (adaptResRow now r).date = r.date
        ∧ (adaptResRow now r).updatedAt = .str now)
    ∧ numOr .undef 1 = 1
    ∧ numOr .undef 90 = 90
    ∧ jsOr .undef (.str "new") = .str "new"
    ∧ jsOr .null (.str "") = .str "" :=
  ⟨rfl, fun _ => ⟨rfl, rfl, rfl, rfl, rfl, rfl, rfl, rfl, rfl⟩, rfl, rfl, rfl, rfl⟩

/-- C6: when the insert succeeds, `createReservationSB` prepends the
optimistic entry to the cached list, keeping all previously cached
entries behind it, and emits the re-render event; the entry's id is
`"tmp_"` followed by the timestamp, its status is "new", and its
duration is 90 whenever `duration_minutes` was not supplied
(undefined triggers the destructuring default). -/
theorem createReservation_prepends (p : CreatePayload) (nowMs : Int)
    (now : String) (st : St) (list : List Res) :
    createReservationSB true none p nowMs now { st with resv := .val list } =
      (.ok (some true),
       { st with resv := .val (optimisticEntry p nowMs now :: list)
                 events := st.events + 1 })
    ∧ (∃ rest : String, (optimisticEntry p nowMs now).id = .str ("tmp_" ++ rest))
    ∧ (optimisticEntry p nowMs now).status = .str "new"
    ∧ (∀ n ph i pe : JVal,
        (optimisticEntry { name := n, phone := ph, iso := i, people := pe }
            nowMs now).duration = .num 90) :=
  ⟨rfl, ⟨toString nowMs, rfl⟩, rfl, fun _ _ _ _ => rfl⟩

/-- C5: when the backend delete succeeds, `deleteReservationSB`
rewrites the cache to the filter keeping exactly the entries whose
id does not stringwise-equal the argument (so every stringwise-match
is removed and every other entry kept), the kept entries stay in
their original order (the result is a sublist of the original), and
the `sb:admin-synced` event counter grows by exactly one. -/
theorem deleteReservation_removes_matching (id : JVal) (st : St) (list : List Res) :
    deleteReservationSB true id none { st with resv := .val list } =
      (.ok (some true),
       { st with resv := .val (list.filter (fun r => jsToString r.id ≠ jsToString id))
                 events := st.events + 1 })
    ∧ (∀ r ∈ list.filter (fun r => jsToString r.id ≠ jsToString id),
        r ∈ list ∧ jsToString r.id ≠ jsToString id)
    ∧ (∀ r ∈ list, jsToString r.id ≠ jsToString id →
        r ∈ list.filter (fun r => jsToString r.id ≠ jsToString id))
    ∧ (list.filter (fun r => jsToString r.id ≠ jsToString id)).Sublist list := by
  refine ⟨rfl, ?_, ?_, List.filter_sublist list⟩
  · intro r hr
    rcases List.mem_filter.mp hr with ⟨h1, h2⟩
    exact ⟨h1, by simpa using h2⟩
  · intro r hr hne
    exact List.mem_filter.mpr ⟨hr, by simpa using hne⟩

/-- A cached reservation with numeric id 5. -/
def resA : Res :=
  { id := .num 5, name := .str "A", phone := .str "1"
    date := .str "2024-01-01T10:00:00Z", people := .num 2
    status := .str "new", notes := .str "", table := .str ""
    duration := .num 90, updatedAt := .str "t0" }

/-- A cached reservation with string id "5" (stringwise equal to
numeric 5). -/
def resB : Res :=
  { resA with id := .str "5", name := .str "B" }

/-- A cached reservation with id 6. -/
def resC : Res :=
  { resA with id := .num 6, name := .str "C" }

/-- C5 witness: deleting id 5 from a cache holding ids 5, "5", 6
keeps exactly the id-6 entry and bumps the event counter once. -/
theorem deleteReservation_removes_matching_witness :
    deleteReservationSB true (.num 5) none { st0 with resv := .val [resA, resB, resC] } =
      (.ok (some true), { st0 with resv := .val [resC], events := 1 }) := by
  have h := deleteReservation_removes_matching (.num 5) st0 [resA, resB, resC]
  exact h.1

/-- C4: when the backend update succeeds and the cache holds a
matching entry (string-equal id, found at index `i`), the operation
replaces exactly that entry with its patch, bumps the event counter
by one, and returns the canonical row; every other entry is
untouched; the patch keeps every field not present in the input,
overwrites exactly the present ones (`table_no` landing in `table`,
`duration_minutes` in `duration`), and refreshes `updatedAt`; in
particular a `{status: "confirmed"}` input changes only `status` and
`updatedAt`. -/
theorem updateReservation_patches_present_fields (id : JVal) (f : UpdFields)
    (row : ResRow) (now : String) (st : St) (list : List Res) (i : Nat)
    (hfind : list.findIdx? (fun r => jsToString r.id = jsToString id) = some i) :
    updateReservationSB true id f (.ok row) now { st with resv := .val list } =
      (.ok (some row),
       { st with resv := .val (list.set i (applyPatch f now (list.getD i default)))
                 events := st.events + 1 })
    ∧ (∀ j, j ≠ i →
        (list.set i (applyPatch f now (list.getD i default))).getD j default
          = list.getD j default)
    ∧ (∀ r : Res,
        (applyPatch f now r).updatedAt = .str now
        ∧ (applyPatch f now r).id = r.id
        ∧ (applyPatch f now r).name = f.name.getD r.name
        ∧ (applyPatch f now r).phone = f.phone.getD r.phone
        ∧ (applyPatch f now r).date = f.date.getD r.date
        ∧ (applyPatch f now r).people = f.people.getD r.people
        ∧ (applyPatch f now r).status = f.status.getD r.status
        ∧ (applyPatch f now r).notes = f.notes.getD r.notes
        ∧ (applyPatch f now r).table = f.table_no.getD r.table
        ∧ (applyPatch f now r).duration = f.duration_minutes.getD r.duration)
    ∧ (∀ r : Res, applyPatch { status := some (.str "confirmed") } now r =
        { r with status := .str "confirmed", updatedAt := .str now }) := by
  refine ⟨?_, ?_, fun r => ⟨rfl, rfl, rfl, rfl, rfl, rfl, rfl, rfl, rfl, rfl⟩,
          fun r => rfl⟩
  · simp [updateReservationSB, cellGet, hfind]
  · intro j hj
    rw [List.getD_eq_getElem?_getD, List.getD_eq_getElem?_getD,
        List.getElem?_set_ne (Ne.symm hj), ← List.getD_eq_getElem?_getD]

/-- A canonical server row as returned by the update's select. -/
def rrow1 : ResRow :=
  { id := .num 5, name := .str "A", phone := .str "1"
    date := .str "2024-01-01T10:00:00Z", people := .num 2
    status := .str "confirmed", notes := .str ""
    table_no := .str "", duration_minutes := .num 90 }

/-- C4 witness: confirming reservation 5 in a two-entry cache patches
only the first entry's `status` and `updatedAt` and leaves the id-6
entry untouched. -/
theorem updateReservation_patches_witness :
    updateReservationSB true (.num 5) { status := some (.str "confirmed") }
        (.ok rrow1) "t1" { st0 with resv := .val [resA, resC] } =
      (.ok (some rrow1),
       { st0 with
           resv := .val [{ resA with status := .str "confirmed"
                                     updatedAt := .str "t1" }, resC]
           events := 1 }) := by
  have h := updateReservation_patches_present_fields (.num 5)
      { status := some (.str "confirmed") } rrow1 "t1" st0 [resA, resC] 0 (by decide)
  exact h.1

/-- C9: whenever a backend query reports an error, the operation
throws that error before any cache write or event dispatch: the
entire browser state (all three cache cells and the event counter) is
exactly as before the call.  For the catalog sync this holds both
when the categories query errors and when the items query errors
after a successful categories query. -/
theorem backend_error_is_atomic (e : JVal) (st : St)
    (cd : Option (List JVal)) (db : Option (List MenuRow)) (ie : Option JVal)
    (now : String) (p : CreatePayload) (nowMs : Int)
    (id : JVal) (f : UpdFields) :
    syncPublicCatalogToLocal true (.error e) db ie st = (.error e, st)
    ∧ syncPublicCatalogToLocal true (.ok cd) db (some e) st = (.error e, st)
    ∧ syncAdminDataToLocal true (.error e) now st = (.error e, st)
    ∧ createReservationSB true (some e) p nowMs now st = (.error e, st)
    ∧ updateReservationSB true id f (.error e) now st = (.error e, st)
    ∧ deleteReservationSB true id (some e) st = (.error e, st) :=
  ⟨rfl, rfl, rfl, rfl, rfl, rfl⟩
